import Mathlib

/-!
Shallow embedding of the flep coroutine library core, covering
`src/coroutine/function_coroutine.rs`, `src/coroutine/par_or.rs` and
`src/rework/coro_param/component.rs`.  Helper types that those files use but
whose sources are not part of the extracted tree (`WorldWindow`, `YieldChannel`,
`CoroAccess`, `CoroMeta`, `SourceId`, `Scope`, `WaitingReason`, `CoroState`,
the tuple implementations of `CoroParam`) are modelled from the specification,
each marked in its doc comment.  Machine-level details that the claims do not
touch (pinning, wakers, store mutation performed by a future while polled) are
not modelled; a future is represented by an explicit step function.
-/

namespace Flep

/-- An entity is an opaque identifier; modelled as a natural number. -/
abbrev Entity := Nat

/-- A component (field) identifier inside the store; modelled as a natural number. -/
abbrev ComponentId := Nat

/-- A component type tag, standing in for the Rust type parameter `T : Component`. -/
abbrev CompTag := Nat

/-- Modelled from the spec: `SourceId` (crate::rework, not under src/) identifies
what an access right is bound to: either global ("world") or owned by an entity. -/
inductive SourceId where
  | world : SourceId
  | entity (e : Entity) : SourceId
deriving DecidableEq, Repr

/-- Modelled from the spec: `CoroAccess` (not under src/) maps (DataSource, FieldId)
to Read or Write; at most one Write or any number of Reads per key. -/
structure CoroAccess where
  reads : List (SourceId × ComponentId)
  writes : List (SourceId × ComponentId)
deriving DecidableEq, Repr

/-- Modelled from the spec: the empty access set, `CoroAccess::default()`. -/
def CoroAccess.default : CoroAccess := ⟨[], []⟩

/-- Modelled from the spec: `add_read(source, field)` returns false (leaving the
set unmodified) if the requested read conflicts with an existing write entry on
the same key; otherwise inserts a read entry and returns true.  The updated set
is returned alongside the flag, making the Rust `&mut self` explicit. -/
def CoroAccess.add_read (a : CoroAccess) (s : SourceId) (f : ComponentId) :
    Bool × CoroAccess :=
  if (s, f) ∈ a.writes then (false, a)
  else (true, { a with reads := (s, f) :: a.reads })

/-- Modelled from the spec: `add_write(source, field)` returns false (leaving the
set unmodified) if any existing entry, read or write, uses the same key;
otherwise inserts a write entry and returns true. -/
def CoroAccess.add_write (a : CoroAccess) (s : SourceId) (f : ComponentId) :
    Bool × CoroAccess :=
  if (s, f) ∈ a.writes ∨ (s, f) ∈ a.reads then (false, a)
  else (true, { a with writes := (s, f) :: a.writes })

/-- The external entity-component store, reduced to the interface the claims
need (section 6 of the spec): component-id lookup by type, entity existence,
and typed component lookup on an entity. -/
structure World where
  componentId : CompTag → Option ComponentId
  entities : List Entity
  components : Entity → CompTag → Option Nat

/-- Store interface: `world.get_entity(e)` succeeds exactly when the entity exists. -/
def World.get_entity (w : World) (e : Entity) : Option Entity :=
  if e ∈ w.entities then some e else none

/-- Store interface: `entity.contains::<T>()`, true when the entity currently has
the component; coherent with `components` (a value is present iff contains). -/
def World.contains (w : World) (e : Entity) (t : CompTag) : Bool :=
  (w.components e t).isSome

/-- Modelled from the spec: `CoroState` (crate::coroutine, not under src/), the
2-state machine of the combinators. -/
inductive CoroState where
  | running : CoroState
  | halted : CoroState
deriving DecidableEq, Repr

/-- The result of polling a future once, `std::task::Poll` with the `()` output dropped. -/
inductive Poll where
  | ready : Poll
  | pending : Poll
deriving DecidableEq, Repr

/-- Modelled from the spec: `WaitingReason` (crate::coroutine, not under src/),
the tagged variant a coroutine reports when it suspends.  `χ` is the type of
boxed child coroutine objects (`CoroObject`). -/
inductive WaitingReason (χ : Type) where
  | tick : WaitingReason χ
  | duration (remaining : Nat) : WaitingReason χ
  | parOr (coroutines : List χ) : WaitingReason χ
  | parAnd (coroutines : List χ) : WaitingReason χ
deriving DecidableEq, Repr

/-- Modelled from the spec: `YieldChannel` (not under src/), a single-slot
handshake with write-then-clear semantics. -/
structure YieldChannel (χ : Type) where
  slot : Option (WaitingReason χ)
deriving DecidableEq, Repr

/-- Modelled from the spec: a fresh channel is empty. -/
def YieldChannel.new (χ : Type) : YieldChannel χ := ⟨none⟩

/-- Modelled from the spec: `send(reason)` fills the slot. -/
def YieldChannel.send (_c : YieldChannel χ) (r : WaitingReason χ) : YieldChannel χ :=
  ⟨some r⟩

/-- Modelled from the spec: `receive()` takes the current slot value and clears
the slot atomically, so a stale reason can never be read twice. -/
def YieldChannel.receive (c : YieldChannel χ) :
    Option (WaitingReason χ) × YieldChannel χ :=
  (c.slot, ⟨none⟩)

/-- Modelled from the spec: `ScopedWorldWindow` / `WorldWindow` (not under src/),
a swappable capability that holds the shared store only while a coroutine is
actively driven. -/
structure WorldWindow where
  cap : Option World

/-- Modelled from the spec: a window constructed closed, `WorldWindow::closed_window()`. -/
def WorldWindow.closed_window : WorldWindow := ⟨none⟩

/-- Whether the window currently exposes the store. -/
def WorldWindow.isOpen (w : WorldWindow) : Bool := w.cap.isSome

/-- Modelled from the spec: `scope(store, body)` opens the window bound to the
given store, invokes `body` against the open window, then unconditionally closes
the window before returning, even if `body` unwinds.  Unwinding is modelled by
`Except String`; the second component is the window state after the call. -/
def WorldWindow.scope (_w : WorldWindow) (store : World)
    (body : WorldWindow → Except String α) : Except String α × WorldWindow :=
  (body ⟨some store⟩, WorldWindow.closed_window)

/-- The `ParamContext` threaded into parameter constructors: owning entity, a
clone of the yield channel and a clone of the world window. -/
structure ParamContext (χ : Type) where
  owner : Entity
  world_window : WorldWindow
  yield_channel : YieldChannel χ

/-- Modelled from the spec: `CoroMeta` (crate::rework, not under src/): the
optional owning entity plus the accumulated access set, as used by the rework
`CoroParam` trait in `component.rs`. -/
structure CoroMeta where
  owner : Option Entity
  access : CoroAccess
deriving DecidableEq, Repr

/-- Modelled from the spec: the rework `Scope` (not under src/) hands the store
capability to parameter accessors while a resume is in progress, through
`scope.resume_param().world_cell()`.  It exists only while the window is open,
so it is modelled as carrying the store itself. -/
structure Scope where
  world : World

/-- One declared coroutine parameter of the `coroutine` (pre-rework) `CoroParam`
trait, reduced to the two operations `function_coroutine.rs` calls: `init`,
which may extend the shared access set or fail, and `is_valid`.  The constructed
parameter value itself only feeds the future and is not tracked. -/
structure ParamSpec (χ : Type) where
  init : ParamContext χ → World → CoroAccess → Option CoroAccess
  is_valid : Entity → World → Bool

/-- Modelled from the spec: the tuple implementations of `CoroParam` (not under
src/) construct the declared parameters left to right, threading one shared
access set and short-circuiting on the first failure. -/
def paramsInit (ps : List (ParamSpec χ)) (ctx : ParamContext χ) (w : World)
    (acc : CoroAccess) : Option CoroAccess :=
  match ps with
  | [] => some acc
  | p :: rest =>
    match p.init ctx w acc with
    | none => none
    | some acc2 => paramsInit rest ctx w acc2

/-- Modelled from the spec: the tuple implementations of `CoroParam` (not under
src/) delegate `is_valid` to each declared parameter and conjoin the answers. -/
def paramsValid (ps : List (ParamSpec χ)) (owner : Entity) (w : World) : Bool :=
  ps.all (fun p => p.is_valid owner w)

/-- The state of `FunctionCoroutine` from `function_coroutine.rs`: the wrapped
future's state, the yield channel, the world window, the owning entity and the
access set.  `σ` is the future's state type. -/
structure FunctionCoroutine (σ χ : Type) where
  future : σ
  yield_channel : YieldChannel χ
  world_window : WorldWindow
  owner : Entity
  access : CoroAccess

/-- A single poll of the wrapped future: from the future's state, the (open)
window and the yield channel it either unwinds (`Except.error`) or produces the
new future state, a poll result and the channel state after any `send` the body
performed.  This makes the shared-cell mutation of the Rust future explicit. -/
def FutureStep (σ χ : Type) :=
  σ → WorldWindow → YieldChannel χ → Except String (σ × Poll × YieldChannel χ)

/-- The diagnostic from `function_coroutine.rs` used when a coroutine suspends
without reporting a reason. -/
def ERR_WRONGAWAIT : String :=
  "A coroutine yielded without notifying the executor the reason. That is most likely because it awaits a future which is not part of this library."

/-- The observable outcome of one `resume` call: `CoroutineResult::Done`,
`CoroutineResult::Yield(reason)`, or a panic (`expect` failure or an unwinding
poll) carrying its diagnostic. -/
inductive ResumeOutcome (χ : Type) where
  | done : ResumeOutcome χ
  | yield (r : WaitingReason χ) : ResumeOutcome χ
  | panicked (msg : String) : ResumeOutcome χ
deriving DecidableEq, Repr

/-- `FunctionCoroutine::resume` from `function_coroutine.rs`: poll the wrapped
future once inside `world_window.scope`, then translate `Ready` to `Done` and
`Pending` to `Yield(yield_channel.receive().expect(ERR_WRONGAWAIT))`.  The
coroutine state after the call is returned alongside the outcome (on a panic the
fields still record the closed window, matching the shared cell's state while
the panic propagates). -/
def FunctionCoroutine.resume (pollF : FutureStep σ χ) (c : FunctionCoroutine σ χ)
    (w : World) : ResumeOutcome χ × FunctionCoroutine σ χ :=
  let scres := c.world_window.scope w (fun win => pollF c.future win c.yield_channel)
  match scres.1 with
  | .error msg => (.panicked msg, { c with world_window := scres.2 })
  | .ok (s, .ready, ch) =>
    (.done, { c with future := s, yield_channel := ch, world_window := scres.2 })
  | .ok (s, .pending, ch) =>
    match ch.receive with
    | (some r, ch2) =>
      (.yield r, { c with future := s, yield_channel := ch2, world_window := scres.2 })
    | (none, ch2) =>
      (.panicked ERR_WRONGAWAIT,
       { c with future := s, yield_channel := ch2, world_window := scres.2 })

/-- `FunctionCoroutine::is_valid`: delegates to `F::Params::is_valid(owner, world)`,
here the conjunction over the declared parameter list. -/
def FunctionCoroutine.is_valid (ps : List (ParamSpec χ)) (c : FunctionCoroutine σ χ)
    (w : World) : Bool :=
  paramsValid ps c.owner w

/-- `UninitCoroutine::init` for a coroutine function, from `function_coroutine.rs`:
allocate a fresh yield channel and a closed world window, build the context,
construct the declared parameters into one shared access set, and fail (None)
when parameter construction fails.  `fut` is the future produced by
`self.init(params)` (its dependence on the parameter values is not tracked). -/
def UninitCoroutine.init (ps : List (ParamSpec χ)) (fut : σ) (owner : Entity)
    (w : World) : Option (FunctionCoroutine σ χ) :=
  let yield_channel := YieldChannel.new χ
  let world_window := WorldWindow.closed_window
  let context : ParamContext χ :=
    { owner := owner, world_window := world_window, yield_channel := yield_channel }
  match paramsInit ps context w CoroAccess.default with
  | none => none
  | some access =>
    some { future := fut, yield_channel := yield_channel,
           world_window := world_window, owner := owner, access := access }

/-- The `Fib` control parameter from `function_coroutine.rs`: it only carries the
context. -/
structure Fib (χ : Type) where
  context : ParamContext χ

/-- `impl CoroParam for Fib`: `init` always succeeds, stores the context and
leaves the access set untouched. -/
def Fib.init (context : ParamContext χ) (_world : World) (access : CoroAccess) :
    Option (Fib χ × CoroAccess) :=
  some ({ context := context }, access)

/-- `impl CoroParam for Fib`: `is_valid` is constantly true. -/
def Fib.is_valid (_owner : Entity) (_world : World) : Bool :=
  true

/-- The `ParOr` combinator from `par_or.rs`: the owner taken from the `fib` it
borrows, the list of already-constructed child coroutine objects, and the
2-state machine.  `χ` is the type of boxed child coroutine objects. -/
structure ParOr (χ : Type) where
  owner : Entity
  coroutines : List χ
  state : CoroState
deriving DecidableEq, Repr

/-- `ParOr::new(fib)`: empty child list, `Running` state. -/
def ParOr.new (χ : Type) (owner : Entity) : ParOr χ :=
  { owner := owner, coroutines := [], state := .running }

/-- `ParOr::with(coro)` from `par_or.rs`: construct the child with
`coro.init(fib.owner, world)` against the store reached through the fib's open
world window (`w`; `with` only runs while the parent is polled, so the window is
open); push the child on success, silently keep the list unchanged on failure.
Named `with'` because `with` is reserved in Lean. -/
def ParOr.with' (p : ParOr χ) (coroInit : Entity → World → Option χ) (w : World) :
    ParOr χ :=
  match coroInit p.owner w with
  | some c => { p with coroutines := p.coroutines ++ [c] }
  | none => p

/-- `impl Future for ParOr`, `poll` from `par_or.rs`: in `Halted`, go back to
`Running` and resolve; in `Running`, resolve immediately when the child list is
empty, otherwise go `Halted`, take the whole child list out and send it on the
fib's yield channel as `WaitingReason::ParOr`, and return `Pending`.  The
channel is threaded explicitly. -/
def ParOr.poll (p : ParOr χ) (ch : YieldChannel χ) :
    Poll × ParOr χ × YieldChannel χ :=
  match p.state with
  | .halted => (.ready, { p with state := .running }, ch)
  | .running =>
    if p.coroutines.isEmpty then (.ready, p, ch)
    else
      (.pending, { p with state := .halted, coroutines := [] },
       ch.send (.parOr p.coroutines))

/-- The `Rd<T>` parameter from `rework/coro_param/component.rs`: a read-only
reference to a component of the owning entity.  The `PhantomData<T>` type
parameter is carried as the tag `t`. -/
structure Rd where
  owner : Entity
  id : ComponentId
  t : CompTag
deriving DecidableEq, Repr

/-- `Rd::init` from `component.rs`: look up the component id of `T` (`?`), take
the owning entity from the meta (`?`), then record a read access for
`(SourceId::Entity(owner), id)`; fail when the recording reports a conflict.
The updated meta is returned, making the Rust `&mut CoroMeta` explicit. -/
def Rd.init (t : CompTag) (world : World) (m : CoroMeta) : Option (Rd × CoroMeta) :=
  match world.componentId t with
  | none => none
  | some id =>
    match m.owner with
    | none => none
    | some owner =>
      let res := m.access.add_read (SourceId.entity owner) id
      if res.1 then
        some ({ owner := owner, id := id, t := t }, { m with access := res.2 })
      else none

/-- `Rd::is_valid` from `component.rs`: true when the meta has an owner, the
owner exists in the store and currently has component `T`. -/
def Rd.is_valid (t : CompTag) (world : World) (m : CoroMeta) : Bool :=
  match m.owner with
  | some owner =>
    match world.get_entity owner with
    | some e => world.contains e t
    | none => false
  | none => false

/-- `Rd::get` from `component.rs`: through the open scope, look the owning
entity up (`.unwrap()`) and read component `T` (`.unwrap()`).  The `unwrap`
panics are modelled as `none`. -/
def Rd.get (r : Rd) (s : Scope) : Option Nat :=
  match s.world.get_entity r.owner with
  | none => none
  | some e => s.world.components e r.t

/-- The `Wr<T>` parameter from `component.rs`: a read-write exclusive reference
to a component of the owning entity. -/
structure Wr where
  owner : Entity
  id : ComponentId
  t : CompTag
deriving DecidableEq, Repr

/-- `Wr::init` from `component.rs`: like `Rd::init` but recording a write access. -/
def Wr.init (t : CompTag) (world : World) (m : CoroMeta) : Option (Wr × CoroMeta) :=
  match world.componentId t with
  | none => none
  | some id =>
    match m.owner with
    | none => none
    | some owner =>
      let res := m.access.add_write (SourceId.entity owner) id
      if res.1 then
        some ({ owner := owner, id := id, t := t }, { m with access := res.2 })
      else none

/-- `Wr::is_valid` from `component.rs`: same check as `Rd::is_valid`. -/
def Wr.is_valid (t : CompTag) (world : World) (m : CoroMeta) : Bool :=
  match m.owner with
  | some owner =>
    match world.get_entity owner with
    | some e => world.contains e t
    | none => false
  | none => false

/-- `Wr::get` from `component.rs`: shared read through the open scope, with the
same two `unwrap`s as `Rd::get`. -/
def Wr.get (r : Wr) (s : Scope) : Option Nat :=
  match s.world.get_entity r.owner with
  | none => none
  | some e => s.world.components e r.t

/-- `Wr::get_mut` from `component.rs`: exclusive access through the open scope;
`get_mut::<T>()` succeeds exactly when the component is present, so the looked-up
value models the `Mut<T>` borrow. -/
def Wr.get_mut (r : Wr) (s : Scope) : Option Nat :=
  match s.world.get_entity r.owner with
  | none => none
  | some e => s.world.components e r.t

/-- The property "every declared parameter's init succeeds" for a parameter
list, threading the shared access set left to right as the tuple
implementations do. -/
def AllSucceed (ps : List (ParamSpec χ)) (ctx : ParamContext χ) (w : World)
    (acc : CoroAccess) : Prop :=
  match ps with
  | [] => True
  | p :: rest => ∃ acc2, p.init ctx w acc = some acc2 ∧ AllSucceed rest ctx w acc2

/-- A small concrete store used by the evaluation witnesses: entity 3 exists,
component type 0 has field id 10, and entity 3 holds value 7 in it. -/
def exWorld : World :=
  { componentId := fun t => if t = 0 then some 10 else none,
    entities := [3],
    components := fun e t => if e = 3 ∧ t = 0 then some 7 else none }

/-- A concrete coroutine state used by the evaluation witnesses. -/
def exCoro : FunctionCoroutine Nat Nat :=
  { future := 0, yield_channel := ⟨none⟩, world_window := ⟨none⟩, owner := 3,
    access := CoroAccess.default }

/-- A future step that completes on its first poll. -/
def pollReady : FutureStep Nat Nat := fun s _ ch => .ok (s, .ready, ch)

/-- A future step that suspends after reporting `NextTick` on the channel. -/
def pollPendingSend : FutureStep Nat Nat := fun s _ ch => .ok (s, .pending, ch.send .tick)

/-- A future step that suspends without reporting any reason: the protocol
violation case. -/
def pollPendingSilent : FutureStep Nat Nat := fun s _ ch => .ok (s, .pending, ch)

/-- A future step whose poll unwinds. -/
def pollPanics : FutureStep Nat Nat := fun _ _ _ => .error "boom"

/-- A concrete `ParOr` in `Running` state with two children. -/
def exParOrRun : ParOr Nat := { owner := 3, coroutines := [1, 2], state := .running }

/-- A concrete coroutine meta with owner entity 3 and no recorded access. -/
def exMeta : CoroMeta := { owner := some 3, access := CoroAccess.default }

/-- A concrete read parameter on entity 3, field id 10, component type 0. -/
def exRd : Rd := ⟨3, 10, 0⟩

/-- A concrete write parameter on entity 3, field id 10, component type 0. -/
def exWr : Wr := ⟨3, 10, 0⟩

/-- A child constructor that always fails. -/
def initNone : Entity → World → Option Nat := fun _ _ => none

/-- A child constructor that always produces child 9. -/
def initSome : Entity → World → Option Nat := fun _ _ => some 9

/-- The meta state after `Rd::init` on `exMeta` for component type 0. -/
def exMetaRd : CoroMeta :=
  { owner := some 3,
    access := { reads := [(SourceId.entity 3, 10)], writes := [] } }

/-- The meta state after `Wr::init` on `exMeta` for component type 0. -/
def exMetaWr : CoroMeta :=
  { owner := some 3,
    access := { reads := [], writes := [(SourceId.entity 3, 10)] } }

/-- Left-to-right parameter construction succeeds exactly when every declared
parameter constructs on the accumulated access set. -/
theorem paramsInit_isSome_iff (ps : List (ParamSpec χ)) (ctx : ParamContext χ)
    (w : World) (acc : CoroAccess) :
    (paramsInit ps ctx w acc).isSome = true ↔ AllSucceed ps ctx w acc := by
  induction ps generalizing acc with
  | nil => simp [paramsInit, AllSucceed]
  | cons p rest ih =>
    cases h : p.init ctx w acc with
    | none => simp [paramsInit, AllSucceed, h]
    | some acc2 => simp [paramsInit, AllSucceed, h, ih]

/-- Construction of the function coroutine succeeds exactly when parameter
construction does. -/
theorem init_isSome_eq (ps : List (ParamSpec χ)) (fut : σ) (owner : Entity)
    (w : World) :
    (UninitCoroutine.init ps fut owner w).isSome =
      (paramsInit ps ⟨owner, WorldWindow.closed_window, YieldChannel.new χ⟩ w
        CoroAccess.default).isSome := by
  unfold UninitCoroutine.init
  cases h : paramsInit ps ⟨owner, WorldWindow.closed_window, YieldChannel.new χ⟩ w
      CoroAccess.default <;> simp [h]

/-- The window stored in the coroutine object is closed after every resume call,
whatever the poll did. -/
theorem resume_window_closed (pollF : FutureStep σ χ) (c : FunctionCoroutine σ χ)
    (w : World) :
    (FunctionCoroutine.resume pollF c w).2.world_window = WorldWindow.closed_window := by
  cases h : pollF c.future ⟨some w⟩ c.yield_channel with
  | error msg => simp [FunctionCoroutine.resume, WorldWindow.scope, h]
  | ok v =>
    obtain ⟨s, po, ch⟩ := v
    cases po <;> cases hs : ch.slot <;>
      simp [FunctionCoroutine.resume, WorldWindow.scope, YieldChannel.receive, h, hs]

/-- C1: every resume call populates the shared window exactly for the single
poll of the wrapped future — the poll body is invoked against the window opened
on the given store, the window is unconditionally closed when `scope` returns
(also when the body unwinds), the coroutine's window is closed after `resume`
returns, and `init` constructs the coroutine with a closed window. -/
theorem resume_window_discipline (pollF : FutureStep σ χ)
    (c : FunctionCoroutine σ χ) (w : World) :
    (∀ (α : Type) (win : WorldWindow) (store : World)
        (body : WorldWindow → Except String α),
        (win.scope store body).1 = body ⟨some store⟩
        ∧ (win.scope store body).2 = WorldWindow.closed_window)
    ∧ (FunctionCoroutine.resume pollF c w).2.world_window = WorldWindow.closed_window
    ∧ (∀ (ps : List (ParamSpec χ)) (fut : σ) (owner : Entity) (w' : World)
        (res : FunctionCoroutine σ χ),
        UninitCoroutine.init ps fut owner w' = some res →
        res.world_window = WorldWindow.closed_window) := by
  refine ⟨fun α win store body => ⟨rfl, rfl⟩, resume_window_closed pollF c w, ?_⟩
  intro ps fut owner w' res h
  simp only [UninitCoroutine.init] at h
  cases hp : paramsInit ps ⟨owner, WorldWindow.closed_window, YieldChannel.new χ⟩ w'
      CoroAccess.default with
  | none => rw [hp] at h; cases h
  | some acc => rw [hp] at h; cases h; rfl

/-- C1 witness: a panicking poll still leaves the window closed, and a
concretely constructed coroutine starts with a closed window. -/
theorem resume_window_discipline_witness :
    (FunctionCoroutine.resume pollPanics exCoro exWorld).2.world_window
        = WorldWindow.closed_window
    ∧ ({ future := 0, yield_channel := ⟨none⟩, world_window := ⟨none⟩, owner := 3,
         access := CoroAccess.default } : FunctionCoroutine Nat Nat).world_window
        = WorldWindow.closed_window :=
  ⟨(resume_window_discipline pollPanics exCoro exWorld).2.1,
   (resume_window_discipline pollPanics exCoro exWorld).2.2 [] 0 3 exWorld _ rfl⟩

/-- C2: one resume call translates the single poll as follows: `Ready` becomes
`Done`; `Pending` with a reason sitting in the yield channel after the poll
(the channel was empty before, so the reason was sent during this poll) becomes
`Yield` with exactly that reason; `Pending` with an empty channel panics with
the `ERR_WRONGAWAIT` protocol-violation diagnostic. -/
theorem resume_outcome_spec (pollF : FutureStep σ χ) (c : FunctionCoroutine σ χ)
    (w : World) (_hch : c.yield_channel.slot = none) :
    (∀ (s : σ) (ch : YieldChannel χ),
        pollF c.future ⟨some w⟩ c.yield_channel = .ok (s, .ready, ch) →
        (FunctionCoroutine.resume pollF c w).1 = .done)
    ∧ (∀ (s : σ) (ch : YieldChannel χ) (r : WaitingReason χ),
        pollF c.future ⟨some w⟩ c.yield_channel = .ok (s, .pending, ch) →
        ch.slot = some r →
        (FunctionCoroutine.resume pollF c w).1 = .yield r)
    ∧ (∀ (s : σ) (ch : YieldChannel χ),
        pollF c.future ⟨some w⟩ c.yield_channel = .ok (s, .pending, ch) →
        ch.slot = none →
        (FunctionCoroutine.resume pollF c w).1 = .panicked ERR_WRONGAWAIT) := by
  refine ⟨?_, ?_, ?_⟩
  · intro s ch h
    simp [FunctionCoroutine.resume, WorldWindow.scope, h]
  · intro s ch r h hs
    simp [FunctionCoroutine.resume, WorldWindow.scope, YieldChannel.receive, h, hs]
  · intro s ch h hs
    simp [FunctionCoroutine.resume, WorldWindow.scope, YieldChannel.receive, h, hs]

/-- C2 witness: the three outcomes on concrete polls of a concrete coroutine. -/
theorem resume_outcome_spec_witness :
    (FunctionCoroutine.resume pollReady exCoro exWorld).1 = .done
    ∧ (FunctionCoroutine.resume pollPendingSend exCoro exWorld).1 = .yield .tick
    ∧ (FunctionCoroutine.resume pollPendingSilent exCoro exWorld).1
        = .panicked ERR_WRONGAWAIT :=
  ⟨(resume_outcome_spec pollReady exCoro exWorld rfl).1 0 ⟨none⟩ rfl,
   (resume_outcome_spec pollPendingSend exCoro exWorld rfl).2.1 0 ⟨some .tick⟩ .tick rfl rfl,
   (resume_outcome_spec pollPendingSilent exCoro exWorld rfl).2.2 0 ⟨none⟩ rfl rfl⟩

/-- C3: coroutine construction returns a coroutine exactly when every declared
parameter constructs (left to right, on the shared access set starting from the
empty one, in the context holding the fresh closed window and empty channel);
otherwise it returns none, so no partially initialized coroutine is observable. -/
theorem init_iff_params_succeed (ps : List (ParamSpec χ)) (fut : σ)
    (owner : Entity) (w : World) :
    (UninitCoroutine.init ps fut owner w).isSome = true ↔
      AllSucceed ps ⟨owner, WorldWindow.closed_window, YieldChannel.new χ⟩ w
        CoroAccess.default := by
  rw [init_isSome_eq, paramsInit_isSome_iff]

/-- C3 witness: a coroutine with an empty parameter list constructs, so the
trivial success property holds at the concrete input. -/
theorem init_iff_params_succeed_witness :
    AllSucceed ([] : List (ParamSpec Nat))
      ⟨3, WorldWindow.closed_window, YieldChannel.new Nat⟩ exWorld
      CoroAccess.default :=
  (init_iff_params_succeed ([] : List (ParamSpec Nat)) (0 : Nat) 3 exWorld).mp rfl

/-- C5: the 2-state machine of `ParOr::poll`: in `Running` with no children it
resolves immediately; in `Running` with children it sends `ParOr` with all its
children on the yield channel, goes `Halted` and returns `Pending`; in `Halted`
it goes back to `Running` and resolves. -/
theorem parOr_poll_state_machine (p : ParOr χ) (ch : YieldChannel χ) :
    (p.state = .running → p.coroutines = [] → p.poll ch = (.ready, p, ch))
    ∧ (p.state = .running → p.coroutines ≠ [] →
        p.poll ch = (.pending, { p with state := .halted, coroutines := [] },
          ch.send (.parOr p.coroutines)))
    ∧ (p.state = .halted → p.poll ch = (.ready, { p with state := .running }, ch)) := by
  refine ⟨?_, ?_, ?_⟩
  · intro hs he
    simp [ParOr.poll, hs, he]
  · intro hs he
    simp [ParOr.poll, hs, List.isEmpty_iff, he]
  · intro hs
    simp [ParOr.poll, hs]

/-- C5 witness: polling the concrete running combinator with two children
yields `Pending`, the halted state and the sent reason. -/
theorem parOr_poll_state_machine_witness :
    ParOr.poll exParOrRun ⟨none⟩ =
      (.pending, { exParOrRun with state := .halted, coroutines := [] },
        YieldChannel.send ⟨none⟩ (.parOr exParOrRun.coroutines)) :=
  (parOr_poll_state_machine exParOrRun ⟨none⟩).2.1 rfl (by decide)

/-- C6: `ParOr::with` constructs the child with the parent's owner against the
current store; a failed construction leaves the combinator unchanged (the child
is silently dropped), a successful one appends the child to the list. -/
theorem parOr_with_child (p : ParOr χ) (coroInit : Entity → World → Option χ)
    (w : World) :
    (coroInit p.owner w = none → p.with' coroInit w = p)
    ∧ (∀ c, coroInit p.owner w = some c →
        p.with' coroInit w = { p with coroutines := p.coroutines ++ [c] }) := by
  constructor
  · intro h
    simp [ParOr.with', h]
  · intro c h
    simp [ParOr.with', h]

/-- C6 witness: a failing constructor leaves the concrete combinator unchanged
and a succeeding one appends its child. -/
theorem parOr_with_child_witness :
    ParOr.with' exParOrRun initNone exWorld = exParOrRun
    ∧ ParOr.with' exParOrRun initSome exWorld =
        { exParOrRun with coroutines := exParOrRun.coroutines ++ [9] } :=
  ⟨(parOr_with_child exParOrRun initNone exWorld).1 rfl,
   (parOr_with_child exParOrRun initSome exWorld).2 9 rfl⟩

/-- C9: whenever `ParOr::poll` yields, the whole child list has been moved into
the `ParOr` reason sent on the yield channel: the combinator is left halted with
an empty child list. -/
theorem parOr_yield_transfers_children (p : ParOr χ) (ch : YieldChannel χ)
    (h : (p.poll ch).1 = .pending) :
    (p.poll ch).2.1.coroutines = []
    ∧ (p.poll ch).2.1.state = .halted
    ∧ (p.poll ch).2.2.slot = some (.parOr p.coroutines) := by
  cases hs : p.state with
  | halted => simp [ParOr.poll, hs] at h
  | running =>
    cases hc : p.coroutines with
    | nil => simp [ParOr.poll, hs, hc] at h
    | cons a l => simp [ParOr.poll, hs, hc, YieldChannel.send]

/-- C9 witness: the concrete running combinator with two children transfers
both of them into the sent reason. -/
theorem parOr_yield_transfers_children_witness :
    (ParOr.poll exParOrRun ⟨none⟩).2.1.coroutines = []
    ∧ (ParOr.poll exParOrRun ⟨none⟩).2.1.state = .halted
    ∧ (ParOr.poll exParOrRun ⟨none⟩).2.2.slot = some (.parOr exParOrRun.coroutines) :=
  parOr_yield_transfers_children exParOrRun ⟨none⟩ (by decide)

/-- C8: the `Fib` control parameter always constructs, stores exactly the
context, leaves the access set unchanged, and is valid for every owner and
store. -/
theorem fib_param_trivial (ctx : ParamContext χ) (w : World) (acc : CoroAccess)
    (o : Entity) (w' : World) :
    Fib.init ctx w acc = some ({ context := ctx }, acc)
    ∧ Fib.is_valid o w' = true :=
  ⟨rfl, rfl⟩

/-- The read parameter fails to construct exactly when the component type has
no field id, the meta has no owner, or recording the read conflicts. -/
theorem rd_init_eq_none_iff (t : CompTag) (w : World) (m : CoroMeta) :
    Rd.init t w m = none ↔
      w.componentId t = none ∨ m.owner = none ∨
        ∃ id o, w.componentId t = some id ∧ m.owner = some o ∧
          (m.access.add_read (SourceId.entity o) id).1 = false := by
  cases hid : w.componentId t with
  | none => simp [Rd.init, hid]
  | some id =>
    cases ho : m.owner with
    | none => simp [Rd.init, hid, ho]
    | some o =>
      cases hb : (m.access.add_read (SourceId.entity o) id).1 with
      | false => simp [Rd.init, hid, ho, hb]
      | true => simp [Rd.init, hid, ho, hb]

/-- A successful `Rd::init` records a read entry for the owning entity and the
component's field id. -/
theorem rd_init_some (t : CompTag) (w : World) (m : CoroMeta) (r : Rd)
    (m' : CoroMeta) (h : Rd.init t w m = some (r, m')) :
    m.owner = some r.owner ∧ w.componentId t = some r.id ∧ r.t = t ∧
      (SourceId.entity r.owner, r.id) ∈ m'.access.reads := by
  cases hid : w.componentId t with
  | none => simp [Rd.init, hid] at h
  | some id =>
    cases ho : m.owner with
    | none => simp [Rd.init, hid, ho] at h
    | some o =>
      cases hb : (m.access.add_read (SourceId.entity o) id).1 with
      | false => simp [Rd.init, hid, ho, hb] at h
      | true =>
        simp [Rd.init, hid, ho, hb] at h
        obtain ⟨hr, hm⟩ := h
        subst hr
        subst hm
        refine ⟨rfl, rfl, rfl, ?_⟩
        by_cases hw : (SourceId.entity o, id) ∈ m.access.writes
        · simp [CoroAccess.add_read, hw] at hb
        · simp [CoroAccess.add_read, hw]

/-- The write parameter fails to construct exactly when the component type has
no field id, the meta has no owner, or recording the write conflicts. -/
theorem wr_init_eq_none_iff (t : CompTag) (w : World) (m : CoroMeta) :
    Wr.init t w m = none ↔
      w.componentId t = none ∨ m.owner = none ∨
        ∃ id o, w.componentId t = some id ∧ m.owner = some o ∧
          (m.access.add_write (SourceId.entity o) id).1 = false := by
  cases hid : w.componentId t with
  | none => simp [Wr.init, hid]
  | some id =>
    cases ho : m.owner with
    | none => simp [Wr.init, hid, ho]
    | some o =>
      cases hb : (m.access.add_write (SourceId.entity o) id).1 with
      | false => simp [Wr.init, hid, ho, hb]
      | true => simp [Wr.init, hid, ho, hb]

/-- A successful `Wr::init` records a write entry for the owning entity and the
component's field id. -/
theorem wr_init_some (t : CompTag) (w : World) (m : CoroMeta) (r : Wr)
    (m' : CoroMeta) (h : Wr.init t w m = some (r, m')) :
    m.owner = some r.owner ∧ w.componentId t = some r.id ∧ r.t = t ∧
      (SourceId.entity r.owner, r.id) ∈ m'.access.writes := by
  cases hid : w.componentId t with
  | none => simp [Wr.init, hid] at h
  | some id =>
    cases ho : m.owner with
    | none => simp [Wr.init, hid, ho] at h
    | some o =>
      cases hb : (m.access.add_write (SourceId.entity o) id).1 with
      | false => simp [Wr.init, hid, ho, hb] at h
      | true =>
        simp [Wr.init, hid, ho, hb] at h
        obtain ⟨hr, hm⟩ := h
        subst hr
        subst hm
        refine ⟨rfl, rfl, rfl, ?_⟩
        by_cases hw : (SourceId.entity o, id) ∈ m.access.writes
              ∨ (SourceId.entity o, id) ∈ m.access.reads
        · simp [CoroAccess.add_write, hw] at hb
        · simp [CoroAccess.add_write, hw]

/-- C4: `Rd::init` registers a read entry and `Wr::init` a write entry for the
owning entity and the component's field id, and each rejects construction
(returns none) precisely when the field id does not exist, the coroutine has no
owning entity, or recording the access reports a conflict. -/
theorem component_param_init_spec (t : CompTag) (w : World) (m : CoroMeta) :
    (Rd.init t w m = none ↔
      w.componentId t = none ∨ m.owner = none ∨
        ∃ id o, w.componentId t = some id ∧ m.owner = some o ∧
          (m.access.add_read (SourceId.entity o) id).1 = false)
    ∧ (∀ r m', Rd.init t w m = some (r, m') →
        m.owner = some r.owner ∧ w.componentId t = some r.id ∧ r.t = t ∧
          (SourceId.entity r.owner, r.id) ∈ m'.access.reads)
    ∧ (Wr.init t w m = none ↔
      w.componentId t = none ∨ m.owner = none ∨
        ∃ id o, w.componentId t = some id ∧ m.owner = some o ∧
          (m.access.add_write (SourceId.entity o) id).1 = false)
    ∧ (∀ r m', Wr.init t w m = some (r, m') →
        m.owner = some r.owner ∧ w.componentId t = some r.id ∧ r.t = t ∧
          (SourceId.entity r.owner, r.id) ∈ m'.access.writes) :=
  ⟨rd_init_eq_none_iff t w m, fun r m' h => rd_init_some t w m r m' h,
   wr_init_eq_none_iff t w m, fun r m' h => wr_init_some t w m r m' h⟩

/-- C4 witness: concrete successful constructions of a read and of a write
parameter register the expected entries. -/
theorem component_param_init_spec_witness :
    (exMeta.owner = some exRd.owner ∧ exWorld.componentId 0 = some exRd.id
      ∧ exRd.t = 0 ∧ (SourceId.entity exRd.owner, exRd.id) ∈ exMetaRd.access.reads)
    ∧ (exMeta.owner = some exWr.owner ∧ exWorld.componentId 0 = some exWr.id
      ∧ exWr.t = 0 ∧ (SourceId.entity exWr.owner, exWr.id) ∈ exMetaWr.access.writes) :=
  ⟨(component_param_init_spec 0 exWorld exMeta).2.1 exRd exMetaRd (by decide),
   (component_param_init_spec 0 exWorld exMeta).2.2.2 exWr exMetaWr (by decide)⟩

/-- C7: the coroutine's validity check is the conjunction of its declared
parameters' checks at the owner and current store, and the `Rd`/`Wr` check holds
exactly when there is an owning entity that exists in the store and currently
has the component. -/
theorem is_valid_conjunction (ps : List (ParamSpec χ)) (c : FunctionCoroutine σ χ)
    (w : World) (t : CompTag) (w' : World) (m : CoroMeta) :
    FunctionCoroutine.is_valid ps c w = (ps.all fun p => p.is_valid c.owner w)
    ∧ (Rd.is_valid t w' m = true ↔
        ∃ o, m.owner = some o ∧ o ∈ w'.entities ∧ w'.contains o t = true)
    ∧ (Wr.is_valid t w' m = true ↔
        ∃ o, m.owner = some o ∧ o ∈ w'.entities ∧ w'.contains o t = true) := by
  refine ⟨rfl, ?_, ?_⟩ <;>
  · cases ho : m.owner with
    | none => simp [Rd.is_valid, Wr.is_valid, ho]
    | some o =>
      by_cases he : o ∈ w'.entities <;>
        simp [Rd.is_valid, Wr.is_valid, World.get_entity, ho, he]

/-- C7 witness: the concrete read parameter is valid on the concrete store. -/
theorem is_valid_conjunction_witness :
    Rd.is_valid 0 exWorld exMeta = true :=
  (is_valid_conjunction ([] : List (ParamSpec Nat)) exCoro exWorld 0 exWorld
    exMeta).2.1.mpr ⟨3, rfl, by decide, by decide⟩

/-- A read access through the open scope succeeds exactly when the parameter's
validity check holds. -/
theorem rd_get_isSome_eq (r : Rd) (w : World) (m : CoroMeta)
    (hm : m.owner = some r.owner) :
    (Rd.get r ⟨w⟩).isSome = Rd.is_valid r.t w m := by
  unfold Rd.get Rd.is_valid World.get_entity World.contains
  rw [hm]
  by_cases he : r.owner ∈ w.entities <;> simp [he]

/-- A shared read through a write parameter succeeds exactly when the
parameter's validity check holds. -/
theorem wr_get_isSome_eq (q : Wr) (w : World) (m : CoroMeta)
    (hm : m.owner = some q.owner) :
    (Wr.get q ⟨w⟩).isSome = Wr.is_valid q.t w m := by
  unfold Wr.get Wr.is_valid World.get_entity World.contains
  rw [hm]
  by_cases he : q.owner ∈ w.entities <;> simp [he]

/-- An exclusive borrow through a write parameter succeeds exactly when the
parameter's validity check holds. -/
theorem wr_get_mut_isSome_eq (q : Wr) (w : World) (m : CoroMeta)
    (hm : m.owner = some q.owner) :
    (Wr.get_mut q ⟨w⟩).isSome = Wr.is_valid q.t w m := by
  unfold Wr.get_mut Wr.is_valid World.get_entity World.contains
  rw [hm]
  by_cases he : q.owner ∈ w.entities <;> simp [he]

/-- C10: during an open scope, `Rd::get`, `Wr::get` and `Wr::get_mut` succeed
exactly when the parameter's validity check holds for the current store; when
the owning entity is gone or no longer has the component they panic (modelled
as none) instead of returning an error. -/
theorem component_get_total_iff_valid (r : Rd) (q : Wr) (w : World)
    (m m' : CoroMeta) (hm : m.owner = some r.owner)
    (hm' : m'.owner = some q.owner) :
    ((Rd.get r ⟨w⟩).isSome = true ↔ Rd.is_valid r.t w m = true)
    ∧ ((Wr.get q ⟨w⟩).isSome = true ↔ Wr.is_valid q.t w m' = true)
    ∧ ((Wr.get_mut q ⟨w⟩).isSome = true ↔ Wr.is_valid q.t w m' = true)
    ∧ (Rd.is_valid r.t w m = false → Rd.get r ⟨w⟩ = none)
    ∧ (Wr.is_valid q.t w m' = false → Wr.get_mut q ⟨w⟩ = none) := by
  have h1 := rd_get_isSome_eq r w m hm
  have h2 := wr_get_isSome_eq q w m' hm'
  have h3 := wr_get_mut_isSome_eq q w m' hm'
  refine ⟨by rw [h1], by rw [h2], by rw [h3], ?_, ?_⟩
  · intro hv
    cases hg : Rd.get r ⟨w⟩ with
    | none => rfl
    | some v => rw [hg, hv] at h1; simp at h1
  · intro hv
    cases hg : Wr.get_mut q ⟨w⟩ with
    | none => rfl
    | some v => rw [hg, hv] at h3; simp at h3

/-- C10 witness: the accessors on the concrete parameters and store, with the
validity precondition satisfied. -/
theorem component_get_total_iff_valid_witness :
    ((Rd.get exRd ⟨exWorld⟩).isSome = true ↔ Rd.is_valid exRd.t exWorld exMeta = true)
    ∧ ((Wr.get exWr ⟨exWorld⟩).isSome = true ↔ Wr.is_valid exWr.t exWorld exMeta = true)
    ∧ ((Wr.get_mut exWr ⟨exWorld⟩).isSome = true
        ↔ Wr.is_valid exWr.t exWorld exMeta = true)
    ∧ (Rd.is_valid exRd.t exWorld exMeta = false → Rd.get exRd ⟨exWorld⟩ = none)
    ∧ (Wr.is_valid exWr.t exWorld exMeta = false → Wr.get_mut exWr ⟨exWorld⟩ = none) :=
  component_get_total_iff_valid exRd exWr exWorld exMeta exMeta rfl rfl

end Flep
